import Mathlib

/-!
Shallow embedding of the allocation and submission consistency engine of
`src/main.py` (Academic-Submission-Form). Python dicts backing JSON records
become structures; the mutable JSON collections become explicit values
threaded through the functions; wall-clock timestamps become opaque `String`
or `Int` parameters; `datetime.fromisoformat` becomes an abstract
`parse : String → Option Int` parameter (the code only depends on whether
parsing succeeds). Error messages built by string interpolation in the
source become constructors of an inductive type, one per distinct message.
-/

namespace AcadForm

/-- The Python `str.strip()` used throughout the validation code: drop
whitespace from both ends (ASCII whitespace suffices for this model). -/
def pyStrip (s : String) : String :=
  ⟨((s.data.dropWhile Char.isWhitespace).reverse.dropWhile Char.isWhitespace).reverse⟩

/-- A group member record as built at src/main.py lines 2187-2211:
fields `name`, `roll_no`, `is_leader`. -/
structure Member where
  name : String
  roll_no : String
  is_leader : Bool
deriving DecidableEq, Repr

/-- A group record as created at src/main.py lines 2382-2390 and soft-deleted
at lines 4772-4777. The `submission_date` string duplicate of the timestamp is
elided; `deleted_at` and `deleted_reason` are absent (`none`) until deletion. -/
structure Group where
  group_number : Nat
  project_name : String
  status : String
  members : List Member
  submission_timestamp : String
  deleted : Bool
  deleted_at : Option String
  deleted_reason : Option String
deriving DecidableEq, Repr

/-- A project record. `selected_by` models `project.get('selected_by', 0)`
(src/main.py lines 2401, 4785-4787); the optional audit fields are `none`
until the corresponding mutation writes them. -/
structure Project where
  name : String
  status : String
  selected_by : Nat
  selected_by_group : Option Nat
  selected_at : Option String
  deleted : Bool
  deleted_at : Option String
  deleted_reason : Option String
  released_at : Option String
  released_by_group : Option Nat
deriving DecidableEq, Repr

/-- The configuration fields read by the submission path:
`config.get("max_members", 3)` and `config.get("next_group_number", 1)`
(src/main.py lines 2146, 2383, 2410). -/
structure Config where
  max_members : Nat
  next_group_number : Nat
deriving DecidableEq, Repr

/-! ## Deadline gate (src/main.py lines 94-151) -/

/-- One entry of `deadlines.json` for a form type: `{enabled, datetime}`
(src/main.py lines 97-104). An absent or empty entry is modelled as `none`
at the call sites. -/
structure FormDeadline where
  enabled : Bool
  datetime : String
deriving DecidableEq, Repr

/-- The two distinct messages `get_form_status` can attach
(src/main.py lines 142 and 148); the open-case message carries the rendered
remaining-time text, the closed-case message carries the deadline it prints. -/
inductive DeadlineMessage where
  | closesIn (time_text : String)
  | passedOn (deadline : Int)
deriving DecidableEq, Repr

/-- The dictionary returned by `get_form_status`:
`{"open": ..., "deadline": ..., "message": ...}`. -/
structure FormStatus where
  isOpen : Bool
  deadline : Option Int
  message : Option DeadlineMessage
deriving DecidableEq, Repr

/-- The remaining-time text of src/main.py lines 130-137: hours when less
than 24 hours remain, whole days otherwise. `seconds` is the nonnegative
remaining time in seconds. -/
def time_text (seconds : Nat) : String :=
  let hours_left := seconds / 3600
  if hours_left < 24 then toString hours_left ++ " hours"
  else toString (hours_left / 24) ++ " days"

/-- `get_form_status` (src/main.py lines 113-151). `form_deadline` is the
entry `deadlines.get(form_type, {})`, with the falsy empty dict modelled as
`none`; `parse` models `datetime.fromisoformat` with `none` for the raised
exception; `now` is the single clock read. -/
def get_form_status (form_deadline : Option FormDeadline)
    (parse : String → Option Int) (now : Int) : FormStatus :=
  match form_deadline with
  | none => ⟨true, none, none⟩
  | some fd =>
    if !fd.enabled then ⟨true, none, none⟩
    else if fd.datetime.isEmpty then ⟨true, none, none⟩
    else
      match parse fd.datetime with
      | none => ⟨true, none, none⟩
      | some deadline =>
        if now ≤ deadline then
          ⟨true, some deadline, some (.closesIn (time_text (deadline - now).toNat))⟩
        else
          ⟨false, some deadline, some (.passedOn deadline)⟩

/-- `check_form_deadline` (src/main.py lines 94-111): `True` means the form
is still open for submission. -/
def check_form_deadline (form_deadline : Option FormDeadline)
    (parse : String → Option Int) (now : Int) : Bool :=
  match form_deadline with
  | none => true
  | some fd =>
    if !fd.enabled then true
    else if fd.datetime.isEmpty then true
    else
      match parse fd.datetime with
      | none => true
      | some deadline => now ≤ deadline

/-! ## Record store reads (src/main.py lines 371-380) -/

/-- The three states a persisted collection file can be in from the point of
view of `load_data`: absent on disk, present but not valid JSON, or valid. -/
inductive PersistedFile (α : Type) where
  | missing
  | malformed
  | wellFormed (data : α)
deriving DecidableEq, Repr

/-- `load_data` (src/main.py lines 371-380). First component: the return
value (`None` is `none`). Second component: whether `st.error` was called
(only the `json.JSONDecodeError` path of the `except` clause displays an
error; a missing file returns `None` from the `os.path.exists` check with no
error display). -/
def load_data {α : Type} : PersistedFile α → Option α × Bool
  | .missing => (none, false)
  | .malformed => (none, true)
  | .wellFormed d => (some d, false)

/-! ## Short-link resolver (src/main.py lines 52-55, 2511-2545, 5740-5765) -/

/-- One value of the `short_urls.json` dictionary
(src/main.py lines 2537-2542): `{url, created_at, clicks, last_accessed}`. -/
structure ShortUrl where
  url : String
  created_at : String
  clicks : Nat
  last_accessed : Option String
deriving DecidableEq, Repr

/-- The `short_urls` dictionary, modelled as an association list whose keys
are unique in any state actually produced by the code. -/
abbrev ShortUrls := List (String × ShortUrl)

/-- Python dict assignment `d[k] = v`: replace the value when the key is
present, append the binding otherwise. -/
def dict_insert (d : ShortUrls) (k : String) (v : ShortUrl) : ShortUrls :=
  if d.any (fun p => p.1 == k) then
    d.map (fun p => if p.1 == k then (k, v) else p)
  else d ++ [(k, v)]

/-- Python `code in short_urls` membership test. -/
def has_code (d : ShortUrls) (code : String) : Bool :=
  d.any (fun p => p.1 == code)

/-- First-match key lookup, `short_urls[code]` on a dict with unique keys. -/
def lookup_short (d : ShortUrls) (code : String) : Option ShortUrl :=
  (d.find? (fun p => p.1 == code)).map Prod.snd

/-- Outcome of a `?short=<code>` request in `main`
(src/main.py lines 5740-5765): either the standalone student form is shown,
or the invalid-short-URL warning is rendered. -/
inductive ResolveResult where
  | resolved
  | notFound
deriving DecidableEq, Repr

/-- The short-code branch of `main` (src/main.py lines 5740-5765).
Returns the outcome, the resulting `short_urls` collection, and whether
`save_data` was called to write the collection back. On a hit the matching
code has `clicks` incremented and `last_accessed` set to `now`; on a miss
nothing is touched and nothing is saved. -/
def resolve_short (short_urls : ShortUrls) (code : String) (now : String) :
    ResolveResult × ShortUrls × Bool :=
  if has_code short_urls code then
    let updated := short_urls.map (fun p =>
      if p.1 == code then
        (p.1, { p.2 with clicks := p.2.clicks + 1, last_accessed := some now })
      else p)
    (.resolved, updated, true)
  else
    (.notFound, short_urls, false)

/-- The generate-new-short-URL button of `manage_short_urls`
(src/main.py lines 2534-2545). `short_code` is the value returned by
`generate_short_code()`; the code stores the fresh entry with plain dict
assignment, with no check against the existing key set. -/
def add_short_url (short_urls : ShortUrls) (short_code : String)
    (base_url now : String) : ShortUrls :=
  dict_insert short_urls short_code
    { url := base_url ++ "/?short=" ++ short_code
      created_at := now
      clicks := 0
      last_accessed := none }

/-! ## Submission validation and commit (src/main.py lines 2114-2411) -/

/-- The inputs of one press of the submit button in
`display_submission_form`. `member1_name` and `member1_roll` are the leader
fields (src/main.py lines 2182-2184); `additional_members` are the
name and roll text inputs of members 2..max_members (lines 2199-2211);
`project_choice` is `none` when no project was chosen (the falsy `None` and
empty-string cases of `project_choice` in the source). -/
structure Submission where
  member1_name : String
  member1_roll : String
  additional_members : List (String × String)
  project_choice : Option String
  agree_terms : Bool
  agree_final : Bool
deriving DecidableEq, Repr

/-- The `members_data` list as assembled at src/main.py lines 2176-2211:
the leader entry first with `is_leader` true, then the additional members
with `is_leader` false. -/
def members_data (s : Submission) : List Member :=
  ⟨s.member1_name, s.member1_roll, true⟩ ::
    s.additional_members.map (fun p => ⟨p.1, p.2, false⟩)

/-- The validation error messages of src/main.py lines 2310-2371, one
constructor per distinct message:
`member1Required` = "Member 1 (Group Leader) name and roll number are required";
`selectProject` = "Please select a project";
`confirmAccurate` = "Please confirm that information is accurate";
`confirmFinal` = "Please confirm that selection is final";
`duplicateWithinGroup` = "Duplicate roll numbers detected within your group";
`rollRegistered roll` = "Roll number {roll} is already registered in another group";
`projectUnavailable` = "This project is no longer available. Please select another project.";
`atLeastOneMember` = "At least one member (Group Leader) is required". -/
inductive FormError where
  | member1Required
  | selectProject
  | confirmAccurate
  | confirmFinal
  | duplicateWithinGroup
  | rollRegistered (roll : String)
  | projectUnavailable
  | atLeastOneMember
deriving DecidableEq, Repr

/-- `roll_numbers = [m['roll_no'] for m in members_data if m['roll_no'].strip()]`
(src/main.py line 2327). -/
def roll_numbers (md : List Member) : List String :=
  (md.filter (fun m => !(pyStrip m.roll_no).isEmpty)).map Member.roll_no

/-- `unique_rolls = [r for r in roll_numbers if r.strip()]`
(src/main.py line 2328): the same truthiness filter applied again. -/
def unique_rolls (md : List Member) : List String :=
  (roll_numbers md).filter (fun r => !(pyStrip r).isEmpty)

/-- The `existing_rolls` set built at src/main.py lines 2334-2339: the
stripped roll numbers of every member of every active (non-deleted) group,
skipping blank entries. Modelled as a list used only through membership. -/
def existing_rolls (groups : List Group) : List String :=
  (groups.filter (fun g => !g.deleted)).flatMap (fun g =>
    (g.members.filter (fun m => !(pyStrip m.roll_no).isEmpty)).map
      (fun m => pyStrip m.roll_no))

/-- The validation block of the submit handler (src/main.py lines 2310-2371),
producing the aggregated error list in source order. The existing-roll scan
(lines 2341-2346) appends a message for the first conflicting roll only and
then breaks, which `List.find?` captures exactly. -/
def validate_submission (s : Submission) (project_optional : Bool)
    (groups : List Group) (projects : List Project) : List FormError :=
  let md := members_data s
  let e1 := if (pyStrip s.member1_name).isEmpty || (pyStrip s.member1_roll).isEmpty then
      [FormError.member1Required] else []
  let e2 := if !project_optional && s.project_choice.isNone then
      [FormError.selectProject] else []
  let e3 := if !s.agree_terms then [FormError.confirmAccurate] else []
  let e4 := if !s.agree_final then [FormError.confirmFinal] else []
  let ur := unique_rolls md
  let e5 := if ur.eraseDups.length ≠ ur.length then
      [FormError.duplicateWithinGroup] else []
  let e6 := match ur.find? (fun r => (existing_rolls groups).contains (pyStrip r)) with
    | some r => [FormError.rollRegistered r]
    | none => []
  let e7 := match s.project_choice with
    | none => []
    | some pc =>
      let still_available := projects.any (fun p =>
        p.name == pc && p.status == "Not Selected" && !p.deleted)
      let already_selected := groups.any (fun g =>
        g.project_name == pc && !g.deleted)
      if !still_available || already_selected then
        [FormError.projectUnavailable] else []
  let e8 := if (md.filter (fun m =>
      !(pyStrip m.name).isEmpty && !(pyStrip m.roll_no).isEmpty)).length < 1 then
      [FormError.atLeastOneMember] else []
  e1 ++ e2 ++ e3 ++ e4 ++ e5 ++ e6 ++ e7 ++ e8

/-- The three collections the commit path touches, loaded fresh at
src/main.py lines 2378-2379. -/
structure SubmitState where
  groups : List Group
  projects : List Project
  config : Config
deriving DecidableEq, Repr

/-- Terminal outcome of one submission attempt. -/
inductive SubmitResult where
  | committed (group_number : Nat)
  | rejected (errors : List FormError)
deriving DecidableEq, Repr

/-- The project update loop of src/main.py lines 2398-2406: the first
project whose name equals the choice gets `selected_by` incremented, status
set to Submitted, `selected_by_group` and `selected_at` written; then break. -/
def select_project : List Project → String → Nat → String → List Project
  | [], _, _, _ => []
  | p :: ps, pc, gn, now =>
    if p.name == pc then
      { p with selected_by := p.selected_by + 1
               status := "Submitted"
               selected_by_group := some gn
               selected_at := some now } :: ps
    else p :: select_project ps pc gn now

/-- The submit branch of `display_submission_form`
(src/main.py lines 2308-2411): validate; on any error reject with the
aggregated list and leave every collection untouched; otherwise append the
new group numbered `config.next_group_number`, update the chosen project if
any, and increment the counter. -/
def submit_form (s : Submission) (project_optional : Bool)
    (state : SubmitState) (now : String) : SubmitResult × SubmitState :=
  let errors := validate_submission s project_optional state.groups state.projects
  if errors.isEmpty then
    let gn := state.config.next_group_number
    let new_group : Group :=
      { group_number := gn
        project_name := s.project_choice.getD ""
        status := "Submitted"
        members := members_data s
        submission_timestamp := now
        deleted := false
        deleted_at := none
        deleted_reason := none }
    let groups' := state.groups ++ [new_group]
    let projects' := match s.project_choice with
      | some pc => select_project state.projects pc gn now
      | none => state.projects
    let config' := { state.config with
      next_group_number := state.config.next_group_number + 1 }
    (.committed gn, ⟨groups', projects', config'⟩)
  else
    (.rejected errors, state)

/-! ## Soft delete, archive, and project release
(src/main.py lines 57-92, 4392-4414, 4764-4797) -/

/-- One archive file as written by `archive_data`
(src/main.py lines 57-77): the entity snapshot plus metadata. Each call
writes exactly one new file; the list of records models the set of files in
the archive directory. The timestamped filename and the constant
`deleted_by` field are elided. -/
structure ArchiveRecord (α : Type) where
  data_type : String
  deleted_data : α
  reason : String
deriving DecidableEq, Repr

/-- One entry of the deleted-items list as appended by
`add_to_deleted_items` (src/main.py lines 79-92); the sequential `id` and
the timestamp are elided. -/
structure DeletedItem (α : Type) where
  item_type : String
  data : α
  reason : String
deriving DecidableEq, Repr

/-- The recomputed per-project claim count of src/main.py line 4372:
the number of active (non-deleted) groups whose `project_name` equals the
given name. -/
def project_selected_by (groups : List Group) (name : String) : Nat :=
  (groups.filter (fun g => g.project_name == name && !g.deleted)).length

/-- The mark-deleted loop of the project delete handler
(src/main.py lines 4402-4410): the first project with the given name has its
deleted flag, timestamp and reason set; then break. -/
def mark_project_deleted : List Project → String → String → String → List Project
  | [], _, _, _ => []
  | p :: ps, name, now, reason =>
    if p.name == name then
      { p with deleted := true
               deleted_at := some now
               deleted_reason := some reason } :: ps
    else p :: mark_project_deleted ps name now reason

/-- The project delete button of `manage_project_section`
(src/main.py lines 4392-4414). When the recomputed `selected_by` scan is
positive an error is shown and nothing changes; otherwise the first project
with the given name is appended (pre-mutation snapshot) to the deleted-items
list and marked deleted. No `archive_data` call appears on this path, so the
archive list is returned unchanged in every case. -/
def delete_project_action (projects : List Project) (groups : List Group)
    (name : String) (deleted_items : List (DeletedItem Project))
    (archive : List (ArchiveRecord Project)) (now : String) :
    List Project × List (DeletedItem Project) × List (ArchiveRecord Project) :=
  if project_selected_by groups name > 0 then
    (projects, deleted_items, archive)
  else
    match projects.find? (fun p => p.name == name) with
    | none => (projects, deleted_items, archive)
    | some p =>
      let reason := "Admin deleted from project management"
      (mark_project_deleted projects name now reason,
       deleted_items ++ [⟨"project", p, reason⟩],
       archive)

/-- The mark-deleted loop of the group delete handler
(src/main.py lines 4772-4777): the first group with the given number —
the loop does not re-check the deleted flag — has its deleted flag,
timestamp and reason set; then break. -/
def mark_group_deleted : List Group → Nat → String → String → List Group
  | [], _, _, _ => []
  | g :: gs, num, now, reason =>
    if g.group_number == num then
      { g with deleted := true
               deleted_at := some now
               deleted_reason := some reason } :: gs
    else g :: mark_group_deleted gs num now reason

/-- The release loop of src/main.py lines 4782-4792: the first project with
the given name has its cached `selected_by` counter decremented when
positive, and is put back to status Not Selected exactly when the counter
reaches zero; then break. -/
def release_project : List Project → String → Nat → String → List Project
  | [], _, _, _ => []
  | p :: ps, name, gnum, now =>
    if p.name == name then
      (if p.selected_by > 0 then
        (if p.selected_by - 1 = 0 then
          { p with selected_by := p.selected_by - 1
                   status := "Not Selected"
                   released_at := some now
                   released_by_group := some gnum } :: ps
        else
          { p with selected_by := p.selected_by - 1 } :: ps)
      else p :: ps)
    else p :: release_project ps name gnum now

/-- The group delete button of `manage_group_editing`
(src/main.py lines 4602-4797). `group_to_edit` is the first active group
with the selected number (line 4610); when none exists the delete section is
not rendered and nothing changes. On deletion: the pre-mutation snapshot
goes to the deleted-items list and to one new archive file, the group is
marked deleted, and when the group held a non-empty project name the
project is released through its cached counter. -/
def delete_group_action (groups : List Group) (projects : List Project)
    (selected_group_num : Nat) (reason : String)
    (deleted_items : List (DeletedItem Group))
    (archive : List (ArchiveRecord Group)) (now : String) :
    List Group × List Project × List (DeletedItem Group) ×
      List (ArchiveRecord Group) :=
  match groups.find? (fun g => g.group_number == selected_group_num && !g.deleted) with
  | none => (groups, projects, deleted_items, archive)
  | some group_to_edit =>
    let deleted_items' := deleted_items ++ [⟨"group", group_to_edit, reason⟩]
    let archive' := archive ++ [⟨"group", group_to_edit, reason⟩]
    let groups' := mark_group_deleted groups selected_group_num now reason
    let projects' :=
      if group_to_edit.project_name.isEmpty then projects
      else release_project projects group_to_edit.project_name selected_group_num now
    (groups', projects', deleted_items', archive')

/-- Whether some active (non-deleted) group references the project by name:
the scan the specification asks the release path to perform. -/
def references_project (groups : List Group) (name : String) : Bool :=
  groups.any (fun g => g.project_name == name && !g.deleted)

/-! ## Auxiliary definitions used by the theorems -/

/-- A concrete stand-in for `datetime.fromisoformat` used in witnesses: it
parses exactly one datetime string, to the instant `100`. -/
def parse_fixed : String → Option Int :=
  fun s => if s = "2099-01-01 00:00" then some 100 else none

/-- Recognizer for the per-roll conflict message
"Roll number ... is already registered in another group". -/
def isRollRegistered : FormError → Bool
  | .rollRegistered _ => true
  | _ => false

/-! ## Theorems -/

/-- Claim C10: when the deadline entry of a channel is enabled and has a
non-empty datetime string that fails to parse, the gate silently reports the
channel open with no deadline and no message — exactly the result of having
no deadline configured — and `check_form_deadline` allows submission. -/
theorem C10_unparseable_deadline_is_open (fd : FormDeadline)
    (parse : String → Option Int) (now : Int)
    (hen : fd.enabled = true) (hne : fd.datetime.isEmpty = false)
    (hp : parse fd.datetime = none) :
    get_form_status (some fd) parse now = ⟨true, none, none⟩ ∧
    get_form_status (some fd) parse now = get_form_status none parse now ∧
    check_form_deadline (some fd) parse now = true := by
  refine ⟨?_, ?_, ?_⟩ <;> simp [get_form_status, check_form_deadline, hen, hne, hp]

/-- Witness for C10 at a concrete unparseable deadline entry. -/
theorem C10_unparseable_deadline_is_open_witness :
    get_form_status (some ⟨true, "not-a-date"⟩) parse_fixed 0 = ⟨true, none, none⟩ ∧
    get_form_status (some ⟨true, "not-a-date"⟩) parse_fixed 0 =
      get_form_status none parse_fixed 0 ∧
    check_form_deadline (some ⟨true, "not-a-date"⟩) parse_fixed 0 = true :=
  C10_unparseable_deadline_is_open ⟨true, "not-a-date"⟩ parse_fixed 0
    (by decide) (by decide) (by decide)

/-- Counterexample to claim C4: with an enabled deadline entry parsing to
the cutoff `T = 100`, evaluating the gate at `now = T` exactly reports the
channel OPEN (the code compares `now <= deadline`), where the claim says it
reports closed. -/
theorem C4_counterexample_open_at_cutoff :
    parse_fixed "2099-01-01 00:00" = some 100 ∧
    (get_form_status (some ⟨true, "2099-01-01 00:00"⟩) parse_fixed 100).isOpen = true ∧
    check_form_deadline (some ⟨true, "2099-01-01 00:00"⟩) parse_fixed 100 = true := by
  refine ⟨by decide, by decide, by decide⟩

/-- Claim C4 (amended): for an enabled, parseable cutoff `T`, the gate
reports open at every `now ≤ T` and closed at every `now > T` (the boundary
`now = T` is open, not closed), and the open-case message always differs
from the closed-case message. -/
theorem C4_deadline_gate_boundary (fd : FormDeadline)
    (parse : String → Option Int) (T : Int)
    (hen : fd.enabled = true) (hne : fd.datetime.isEmpty = false)
    (hp : parse fd.datetime = some T) :
    (∀ now : Int, now ≤ T → (get_form_status (some fd) parse now).isOpen = true) ∧
    (∀ now : Int, T < now → (get_form_status (some fd) parse now).isOpen = false) ∧
    (∀ n1 n2 : Int, n1 ≤ T → T < n2 →
      (get_form_status (some fd) parse n1).message ≠
        (get_form_status (some fd) parse n2).message) := by
  refine ⟨?_, ?_, ?_⟩
  · intro now h
    simp [get_form_status, hen, hne, hp, h]
  · intro now h
    simp [get_form_status, hen, hne, hp, not_le.mpr h]
  · intro n1 n2 h1 h2
    simp [get_form_status, hen, hne, hp, h1, not_le.mpr h2]

/-- Witness for the amended C4 at the concrete cutoff 100. -/
theorem C4_deadline_gate_boundary_witness :
    (get_form_status (some ⟨true, "2099-01-01 00:00"⟩) parse_fixed 100).isOpen = true ∧
    (get_form_status (some ⟨true, "2099-01-01 00:00"⟩) parse_fixed 101).isOpen = false ∧
    (get_form_status (some ⟨true, "2099-01-01 00:00"⟩) parse_fixed 100).message ≠
      (get_form_status (some ⟨true, "2099-01-01 00:00"⟩) parse_fixed 101).message := by
  obtain ⟨h1, h2, h3⟩ := C4_deadline_gate_boundary ⟨true, "2099-01-01 00:00"⟩
    parse_fixed 100 (by decide) (by decide) (by decide)
  exact ⟨h1 100 (by decide), h2 101 (by decide), h3 100 101 (by decide) (by decide)⟩

/-- Counterexample to claim C9: `load_data` returns the very same value
(`none`, the Python `None`) for a malformed persisted payload and for an
absent file, so loading does map a corrupt file and a missing file to the
same return value. -/
theorem C9_counterexample_same_return :
    (load_data (PersistedFile.malformed : PersistedFile Nat)).1 =
      (load_data (PersistedFile.missing : PersistedFile Nat)).1 := rfl

/-- Claim C9 (amended): a malformed persisted payload is reported only by
displaying an error message; the return value of `load_data` is `none` for
both a corrupt file and a missing file, so the two cases are not
distinguishable by the caller through the return value (only the displayed
error flag differs). -/
theorem C9_corrupt_reporting :
    load_data (PersistedFile.malformed : PersistedFile Nat) = (none, true) ∧
    load_data (PersistedFile.missing : PersistedFile Nat) = (none, false) ∧
    (load_data (PersistedFile.malformed : PersistedFile Nat)).1 =
      (load_data (PersistedFile.missing : PersistedFile Nat)).1 := by
  refine ⟨rfl, rfl, rfl⟩

/-- Claim C5: resolving a short code not present in the short-URL
collection reports not-found, returns the collection unchanged (so the
clicks counter and last-accessed timestamp of every existing code are
untouched), and does not write the collection back. -/
theorem C5_resolve_unknown_no_mutation (short_urls : ShortUrls) (code : String)
    (now : String) (h : has_code short_urls code = false) :
    resolve_short short_urls code now = (.notFound, short_urls, false) := by
  simp [resolve_short, h]

/-- Witness for C5: resolving an unknown code against a store with one
existing entry leaves that entry untouched. -/
theorem C5_resolve_unknown_no_mutation_witness :
    has_code [("abc", ⟨"u", "t0", 7, some "t"⟩)] "zzz" = false ∧
    resolve_short [("abc", ⟨"u", "t0", 7, some "t"⟩)] "zzz" "t1" =
      (.notFound, [("abc", ⟨"u", "t0", 7, some "t"⟩)], false) :=
  ⟨by decide, C5_resolve_unknown_no_mutation _ _ _ (by decide)⟩

/-- Counterexample to claim C6: when the freshly generated code equals a
code already present, `manage_short_urls` silently overwrites the existing
entry by plain dict assignment — the prior target, clicks counter (5) and
creation time are all lost. -/
theorem C6_counterexample_overwrite :
    add_short_url [("abc", ⟨"u0", "t0", 5, none⟩)] "abc" "b" "t1" =
      [("abc", ⟨"b" ++ "/?short=" ++ "abc", "t1", 0, none⟩)] ∧
    lookup_short (add_short_url [("abc", ⟨"u0", "t0", 5, none⟩)] "abc" "b" "t1") "abc" ≠
      some ⟨"u0", "t0", 5, none⟩ := by
  refine ⟨by decide, by decide⟩

/-- Helper: first-match lookup after replacing every binding of a present
key finds the replacement value. -/
theorem lookup_map_replace (ps : ShortUrls) (code : String) (v : ShortUrl)
    (h : has_code ps code = true) :
    lookup_short (ps.map (fun p => if p.1 == code then (code, v) else p)) code =
      some v := by
  induction ps with
  | nil => simp [has_code] at h
  | cons p ps ih =>
    by_cases hc : (p.1 == code) = true
    · simp only [List.map_cons, if_pos hc, lookup_short]
      rw [List.find?_cons_of_pos _ (by simp)]
      rfl
    · have h' : has_code ps code = true := by
        simpa [has_code, hc] using h
      simp only [List.map_cons, if_neg hc, lookup_short]
      rw [List.find?_cons_of_neg _ (by simpa using hc)]
      exact ih h'

/-- Claim C6 (amended): the generation handler performs no collision check;
whenever the generated code collides with an existing key, the existing
entry is silently overwritten with a fresh entry (new target URL, clicks
reset to 0, new creation time, no last access). -/
theorem C6_collision_overwrites (short_urls : ShortUrls)
    (code base_url now : String) (h : has_code short_urls code = true) :
    lookup_short (add_short_url short_urls code base_url now) code =
      some ⟨base_url ++ "/?short=" ++ code, now, 0, none⟩ := by
  have hany : (short_urls.any fun q => q.1 == code) = true := h
  simp only [add_short_url, dict_insert]
  rw [if_pos hany]
  exact lookup_map_replace short_urls code _ h

/-- Witness for the amended C6: a one-entry store, colliding code. -/
theorem C6_collision_overwrites_witness :
    has_code [("abc", ⟨"u0", "t0", 5, none⟩)] "abc" = true ∧
    lookup_short (add_short_url [("abc", ⟨"u0", "t0", 5, none⟩)] "abc" "b" "t1") "abc" =
      some ⟨"b" ++ "/?short=" ++ "abc", "t1", 0, none⟩ :=
  ⟨by decide, C6_collision_overwrites [("abc", ⟨"u0", "t0", 5, none⟩)] "abc" "b" "t1" (by decide)⟩

/-- Claim C2: a submission in which some submitted roll number (non-blank
after stripping) is already present in the member list of an active group
is rejected with a non-empty validation error list, and all three stores —
groups, projects, config — are returned unchanged. -/
theorem C2_roll_conflict_rejected (s : Submission) (po : Bool)
    (state : SubmitState) (now : String)
    (h : ∃ r ∈ unique_rolls (members_data s),
      (existing_rolls state.groups).contains (pyStrip r) = true) :
    (submit_form s po state now).1 =
      .rejected (validate_submission s po state.groups state.projects) ∧
    validate_submission s po state.groups state.projects ≠ [] ∧
    (submit_form s po state now).2 = state := by
  obtain ⟨r, hmem, hconf⟩ := h
  have hsome : ((unique_rolls (members_data s)).find?
      (fun r => (existing_rolls state.groups).contains (pyStrip r))).isSome := by
    rw [List.find?_isSome]
    exact ⟨r, hmem, hconf⟩
  obtain ⟨r0, hr0⟩ := Option.isSome_iff_exists.mp hsome
  have hne : validate_submission s po state.groups state.projects ≠ [] := by
    have hin : FormError.rollRegistered r0 ∈
        validate_submission s po state.groups state.projects := by
      simp only [validate_submission, hr0]
      simp
    exact List.ne_nil_of_mem hin
  have hemp : (validate_submission s po state.groups state.projects).isEmpty = false := by
    simpa [List.isEmpty_iff] using hne
  refine ⟨?_, hne, ?_⟩ <;> simp [submit_form, hemp]

/-- Witness for C2: the sole submitted roll R1 already belongs to an active
group, so the submission is rejected and the state is unchanged. -/
theorem C2_roll_conflict_rejected_witness :
    ("R1" ∈ unique_rolls (members_data ⟨"Alice", "R1", [], some "P1", true, true⟩) ∧
      (existing_rolls [⟨1, "", "Submitted", [⟨"Bob", "R1", true⟩], "t", false, none, none⟩]).contains
        (pyStrip "R1") = true) ∧
    (submit_form ⟨"Alice", "R1", [], some "P1", true, true⟩ false
        ⟨[⟨1, "", "Submitted", [⟨"Bob", "R1", true⟩], "t", false, none, none⟩], [], ⟨3, 5⟩⟩ "t1").1 =
      .rejected (validate_submission ⟨"Alice", "R1", [], some "P1", true, true⟩ false
        [⟨1, "", "Submitted", [⟨"Bob", "R1", true⟩], "t", false, none, none⟩] []) ∧
    (submit_form ⟨"Alice", "R1", [], some "P1", true, true⟩ false
        ⟨[⟨1, "", "Submitted", [⟨"Bob", "R1", true⟩], "t", false, none, none⟩], [], ⟨3, 5⟩⟩ "t1").2 =
      ⟨[⟨1, "", "Submitted", [⟨"Bob", "R1", true⟩], "t", false, none, none⟩], [], ⟨3, 5⟩⟩ := by
  have h := C2_roll_conflict_rejected ⟨"Alice", "R1", [], some "P1", true, true⟩ false
    ⟨[⟨1, "", "Submitted", [⟨"Bob", "R1", true⟩], "t", false, none, none⟩], [], ⟨3, 5⟩⟩ "t1"
    ⟨"R1", by decide, by decide⟩
  exact ⟨⟨by decide, by decide⟩, h.1, h.2.2⟩

/-- Counterexample to claim C3: a submission with two distinct rolls R1 and
R2, each already present in an active group, reports the conflict for R1
only — the loop over the submitted rolls breaks at the first match, so the
conflict message for R2 is absent from the aggregated error list. -/
theorem C3_counterexample_only_first_conflict :
    "R2" ∈ unique_rolls (members_data ⟨"Alice", "R1", [("Bob", "R2")], none, true, true⟩) ∧
    (existing_rolls
        [⟨1, "", "Submitted", [⟨"X", "R1", true⟩], "t", false, none, none⟩,
         ⟨2, "", "Submitted", [⟨"Y", "R2", true⟩], "t", false, none, none⟩]).contains
      (pyStrip "R2") = true ∧
    FormError.rollRegistered "R1" ∈
      validate_submission ⟨"Alice", "R1", [("Bob", "R2")], none, true, true⟩ true
        [⟨1, "", "Submitted", [⟨"X", "R1", true⟩], "t", false, none, none⟩,
         ⟨2, "", "Submitted", [⟨"Y", "R2", true⟩], "t", false, none, none⟩] [] ∧
    FormError.rollRegistered "R2" ∉
      validate_submission ⟨"Alice", "R1", [("Bob", "R2")], none, true, true⟩ true
        [⟨1, "", "Submitted", [⟨"X", "R1", true⟩], "t", false, none, none⟩,
         ⟨2, "", "Submitted", [⟨"Y", "R2", true⟩], "t", false, none, none⟩] [] := by
  refine ⟨by decide, by decide, by decide, by decide⟩

/-- Claim C3 (amended): the validation does aggregate failing rules across
rule kinds, and the within-submission duplicate check is a single aggregate
message; but for conflicts against active groups only the FIRST conflicting
submitted roll is reported: the per-roll conflict messages in the aggregated
list are exactly the first roll (in submission order) whose stripped value
occurs in an active group, or nothing when no submitted roll conflicts. -/
theorem C3_first_conflict_only (s : Submission) (po : Bool)
    (groups : List Group) (projects : List Project) :
    (validate_submission s po groups projects).filter isRollRegistered =
      (match (unique_rolls (members_data s)).find?
          (fun r => (existing_rolls groups).contains (pyStrip r)) with
       | some r => [FormError.rollRegistered r]
       | none => []) := by
  cases hf : (unique_rolls (members_data s)).find?
      (fun r => (existing_rolls groups).contains (pyStrip r)) with
  | none =>
    cases hpc : s.project_choice <;>
      simp only [validate_submission, hpc, hf, List.filter_append] <;>
      split_ifs <;>
      simp [List.filter, isRollRegistered]
  | some r =>
    cases hpc : s.project_choice <;>
      simp only [validate_submission, hpc, hf, List.filter_append] <;>
      split_ifs <;>
      simp [List.filter, isRollRegistered]

/-- Helper: when some project passes the availability test for the chosen
name, the updated projects collection contains an entry of that name with
status Submitted and the committing group number recorded. -/
theorem select_project_mem (projects : List Project) (pc : String) (gn : Nat)
    (now : String)
    (h : projects.any (fun p =>
      p.name == pc && p.status == "Not Selected" && !p.deleted) = true) :
    ∃ p' ∈ select_project projects pc gn now,
      p'.name = pc ∧ p'.status = "Submitted" ∧ p'.selected_by_group = some gn := by
  induction projects with
  | nil => simp at h
  | cons p ps ih =>
    by_cases hc : (p.name == pc) = true
    · refine ⟨{ p with selected_by := p.selected_by + 1
                       status := "Submitted"
                       selected_by_group := some gn
                       selected_at := some now }, ?_, ?_, rfl, rfl⟩
      · simp [select_project, hc]
      · simpa using hc
    · have h' : ps.any (fun p =>
          p.name == pc && p.status == "Not Selected" && !p.deleted) = true := by
        simpa [hc] using h
      obtain ⟨p', hmem, hprops⟩ := ih h'
      exact ⟨p', by simp [select_project, hc, hmem], hprops⟩

/-- Claim C1: with a valid leader, agreed terms, and a chosen project that
exists, is not deleted, has status Not Selected and is claimed by no active
group, a submission against config next_group_number 5 (max_members 3)
commits with group number 5: the new group is appended, the chosen project
gets status Submitted with selected_by_group 5, and the counter becomes 6. -/
theorem C1_commit_scenario (s : Submission) (state : SubmitState) (po : Bool)
    (pname : String) (now : String)
    (h1 : (pyStrip s.member1_name).isEmpty = false)
    (h2 : (pyStrip s.member1_roll).isEmpty = false)
    (h3 : s.project_choice = some pname)
    (h4 : s.agree_terms = true)
    (h5 : s.agree_final = true)
    (h6 : (unique_rolls (members_data s)).eraseDups.length =
      (unique_rolls (members_data s)).length)
    (h7 : (unique_rolls (members_data s)).find?
      (fun r => (existing_rolls state.groups).contains (pyStrip r)) = none)
    (h8 : state.projects.any (fun p =>
      p.name == pname && p.status == "Not Selected" && !p.deleted) = true)
    (h9 : state.groups.any (fun g => g.project_name == pname && !g.deleted) = false)
    (h10 : state.config.max_members = 3)
    (h11 : state.config.next_group_number = 5) :
    submit_form s po state now =
      (.committed 5,
       ⟨state.groups ++ [⟨5, pname, "Submitted", members_data s, now, false, none, none⟩],
        select_project state.projects pname 5 now,
        ⟨3, 6⟩⟩) ∧
    ∃ p' ∈ select_project state.projects pname 5 now,
      p'.name = pname ∧ p'.status = "Submitted" ∧ p'.selected_by_group = some 5 := by
  have hlen : ¬ ((members_data s).filter (fun m =>
      !(pyStrip m.name).isEmpty && !(pyStrip m.roll_no).isEmpty)).length < 1 := by
    simp [members_data, List.filter_cons, h1, h2, Nat.lt_one_iff]
  have hval : validate_submission s po state.groups state.projects = [] := by
    simp only [validate_submission, h3, h7]
    simp [h1, h2, h4, h5, h6, h8, h9, hlen]
  constructor
  · simp [submit_form, hval, h3, h10, h11]
  · exact select_project_mem state.projects pname 5 now h8

/-- Witness for C1: the example scenario of the specification — leader
Alice/R1, project P1 unclaimed and Not Selected, config
{max_members 3, next_group_number 5}. -/
theorem C1_commit_scenario_witness :
    submit_form ⟨"Alice", "R1", [], some "P1", true, true⟩ false
        ⟨[], [⟨"P1", "Not Selected", 0, none, none, false, none, none, none, none⟩], ⟨3, 5⟩⟩ "t" =
      (.committed 5,
       ⟨[⟨5, "P1", "Submitted",
           members_data ⟨"Alice", "R1", [], some "P1", true, true⟩, "t", false, none, none⟩],
        select_project [⟨"P1", "Not Selected", 0, none, none, false, none, none, none, none⟩]
          "P1" 5 "t",
        ⟨3, 6⟩⟩) ∧
    ∃ p' ∈ select_project [⟨"P1", "Not Selected", 0, none, none, false, none, none, none, none⟩]
        "P1" 5 "t",
      p'.name = "P1" ∧ p'.status = "Submitted" ∧ p'.selected_by_group = some 5 := by
  have h := C1_commit_scenario ⟨"Alice", "R1", [], some "P1", true, true⟩
    ⟨[], [⟨"P1", "Not Selected", 0, none, none, false, none, none, none, none⟩], ⟨3, 5⟩⟩
    false "P1" "t" (by decide) (by decide) rfl rfl rfl (by decide) (by decide)
    (by decide) (by decide) rfl rfl
  simpa using h

/-- Counterexample to claim C7: project P carries a drifted cached counter
selected_by = 2 while only one active group (the one being deleted)
references it. After the deletion no active group references P, yet P keeps
status Submitted: the release path trusts the cached counter instead of
re-deriving the claim count by scanning the active groups. -/
theorem C7_counterexample_drifted_counter :
    delete_group_action [⟨1, "P", "Submitted", [], "t", false, none, none⟩]
        [⟨"P", "Submitted", 2, some 1, none, false, none, none, none, none⟩]
        1 "r" [] [] "t1" =
      ([⟨1, "P", "Submitted", [], "t", true, some "t1", some "r"⟩],
       [⟨"P", "Submitted", 1, some 1, none, false, none, none, none, none⟩],
       [⟨"group", ⟨1, "P", "Submitted", [], "t", false, none, none⟩, "r"⟩],
       [⟨"group", ⟨1, "P", "Submitted", [], "t", false, none, none⟩, "r"⟩]) ∧
    references_project [⟨1, "P", "Submitted", [], "t", true, some "t1", some "r"⟩] "P" =
      false := by
  refine ⟨by decide, by decide⟩

/-- Helper: the release loop on a projects list split around the first
project carrying the released name decrements its cached counter when
positive and sets status Not Selected exactly when the counter reaches
zero; its resulting status is Not Selected iff the counter was exactly 1
or the status already was Not Selected. -/
theorem release_project_status (pre : List Project) (p : Project)
    (rest : List Project) (gnum : Nat) (now : String)
    (hpre : ∀ q ∈ pre, (q.name == p.name) = false) :
    ∃ p', release_project (pre ++ p :: rest) p.name gnum now = pre ++ p' :: rest ∧
      (p'.status = "Not Selected" ↔
        (p.selected_by = 1 ∨ p.status = "Not Selected")) := by
  induction pre with
  | nil =>
    match hsel : p.selected_by with
    | 0 =>
      refine ⟨p, ?_, ?_⟩
      · simp [release_project, hsel]
      · simp
    | 1 =>
      refine ⟨{ p with selected_by := 0
                       status := "Not Selected"
                       released_at := some now
                       released_by_group := some gnum }, ?_, ?_⟩
      · simp [release_project, hsel]
      · simp
    | (n + 2) =>
      refine ⟨{ p with selected_by := n + 1 }, ?_, ?_⟩
      · simp [release_project, hsel]
      · simp
  | cons q pre ih =>
    have hq : (q.name == p.name) = false := hpre q (by simp)
    obtain ⟨p', hrel, hiff⟩ := ih (fun x hx => hpre x (by simp [hx]))
    refine ⟨p', ?_, hiff⟩
    simpa [release_project, hq] using congrArg (q :: ·) hrel

/-- Claim C7 (amended): deleting the active group numbered `num` that holds
the non-empty project name of P releases P through the cached per-project
counter, not through a scan of the active groups: in the resulting projects
collection the entry for P has status Not Selected iff the cached
selected_by counter was exactly 1 at deletion time (or the status already
was Not Selected). -/
theorem C7_release_uses_cached_counter (groups : List Group)
    (pre rest : List Project) (p : Project) (num : Nat) (reason : String)
    (di : List (DeletedItem Group)) (ar : List (ArchiveRecord Group))
    (now : String) (g : Group)
    (hg : groups.find? (fun g => g.group_number == num && !g.deleted) = some g)
    (hpn : g.project_name = p.name)
    (hne : p.name.isEmpty = false)
    (hpre : ∀ q ∈ pre, (q.name == p.name) = false) :
    ∃ p', (delete_group_action groups (pre ++ p :: rest) num reason di ar now).2.1 =
        pre ++ p' :: rest ∧
      (p'.status = "Not Selected" ↔
        (p.selected_by = 1 ∨ p.status = "Not Selected")) := by
  obtain ⟨p', hrel, hiff⟩ := release_project_status pre p rest num now hpre
  refine ⟨p', ?_, hiff⟩
  simp [delete_group_action, hg, hpn, hne, hrel]

/-- Witness for the amended C7: a coherent state (counter 1, one active
claiming group); the deletion releases P back to Not Selected. -/
theorem C7_release_uses_cached_counter_witness :
    ∃ p', (delete_group_action [⟨1, "P", "Submitted", [], "t", false, none, none⟩]
        ([] ++ ⟨"P", "Submitted", 1, some 1, none, false, none, none, none, none⟩ ::
          []) 1 "r" [] [] "t1").2.1 =
      [] ++ p' :: [] ∧
      (p'.status = "Not Selected" ↔
        ((⟨"P", "Submitted", 1, some 1, none, false, none, none, none,
            none⟩ : Project).selected_by = 1 ∨
          (⟨"P", "Submitted", 1, some 1, none, false, none, none, none,
            none⟩ : Project).status = "Not Selected")) :=
  C7_release_uses_cached_counter
    [⟨1, "P", "Submitted", [], "t", false, none, none⟩] [] []
    ⟨"P", "Submitted", 1, some 1, none, false, none, none, none, none⟩
    1 "r" [] [] "t1" ⟨1, "P", "Submitted", [], "t", false, none, none⟩
    (by decide) rfl (by decide) (by decide)

/-- Counterexample to claim C8: soft-deleting a project marks it deleted and
appends a deleted-items entry, but writes NO archive file — the archive list
stays empty where the claim requires exactly one new archive file. -/
theorem C8_counterexample_project_no_archive :
    delete_project_action
        [⟨"P", "Not Selected", 0, none, none, false, none, none, none, none⟩]
        [] "P" [] [] "t1" =
      ([⟨"P", "Not Selected", 0, none, none, true, some "t1",
          some "Admin deleted from project management", none, none⟩],
       [⟨"project", ⟨"P", "Not Selected", 0, none, none, false, none, none, none, none⟩,
          "Admin deleted from project management"⟩],
       []) := by
  decide

/-- Claim C8 (amended): soft-deleting a GROUP writes exactly one new archive
file whose content is the pre-deletion snapshot of the group (the record
found while still active); soft-deleting a PROJECT writes no archive file at
all in any case — it only appends a deleted-items entry. -/
theorem C8_archive_per_entity :
    (∀ (groups : List Group) (projects : List Project) (num : Nat)
        (reason : String) (di : List (DeletedItem Group))
        (ar : List (ArchiveRecord Group)) (now : String) (g : Group),
      groups.find? (fun g => g.group_number == num && !g.deleted) = some g →
      (delete_group_action groups projects num reason di ar now).2.2.2 =
          ar ++ [⟨"group", g, reason⟩] ∧
        g.deleted = false) ∧
    (∀ (projects : List Project) (groups : List Group) (name : String)
        (di : List (DeletedItem Project)) (ar : List (ArchiveRecord Project))
        (now : String),
      (delete_project_action projects groups name di ar now).2.2 = ar) := by
  constructor
  · intro groups projects num reason di ar now g hg
    have hpred := List.find?_some hg
    refine ⟨by simp [delete_group_action, hg], ?_⟩
    have : (!g.deleted) = true := by
      cases hd : g.deleted <;> simp [hd] at hpred ⊢
    simpa using this
  · intro projects groups name di ar now
    unfold delete_project_action
    split
    · rfl
    · cases projects.find? (fun p => p.name == name) <;> rfl

/-- Witness for the amended C8: concrete group and project deletions. -/
theorem C8_archive_per_entity_witness :
    ((delete_group_action [⟨1, "P", "Submitted", [], "t", false, none, none⟩]
        [] 1 "r" [] [] "t1").2.2.2 =
      [] ++ [⟨"group", ⟨1, "P", "Submitted", [], "t", false, none, none⟩, "r"⟩] ∧
      (⟨1, "P", "Submitted", [], "t", false, none, none⟩ : Group).deleted = false) ∧
    (delete_project_action
        [⟨"P", "Not Selected", 0, none, none, false, none, none, none, none⟩]
        [] "P" [] [] "t1").2.2 = ([] : List (ArchiveRecord Project)) := by
  obtain ⟨ha, hb⟩ := C8_archive_per_entity
  exact ⟨ha [⟨1, "P", "Submitted", [], "t", false, none, none⟩] [] 1 "r" [] [] "t1"
      ⟨1, "P", "Submitted", [], "t", false, none, none⟩ (by decide),
    hb [⟨"P", "Not Selected", 0, none, none, false, none, none, none, none⟩] [] "P" [] [] "t1"⟩

end AcadForm
